import Mathlib

/-!
Verification of the IELTS writing-test backend (Node/Express + Prisma).

Shallow embedding conventions:
* JavaScript numbers used as band scores are modelled as rationals;
  the arithmetic in the code stays inside dyadic/sixths rationals, far from
  any binary floating-point rounding boundary, so this is exact.
* JavaScript truthiness is modelled field by field: a nullable string
  field is a plain String with the empty string standing for
  null/undefined/empty (all falsy in the code), a nullable count is a Nat
  with 0 standing for null/undefined/0, a nullable object is an Option.
* The database is passed explicitly: each handler becomes a pure function
  from its inputs and the relevant stored rows to a response plus the row
  it writes (if any).
* The external AI provider call is a parameter (ProviderOutcome): the
  handler is a function of the outcome that call would have.
-/

namespace IeltsBackend

/-! ## Band rounding and aggregation (authController.js calculateAverageBand / roundBandScore) -/

/-- Embedding of roundBandScore (authController.js lines 601 to 611).
Math.floor and Math.ceil become Rat.floor and Rat.ceil; the local constant
decimal of the source is inlined. -/
def roundBandScore (score : ℚ) : ℚ :=
  if score - (score.floor : ℚ) < 1/4 then (score.floor : ℚ)
  else if 1/4 ≤ score - (score.floor : ℚ) ∧ score - (score.floor : ℚ) < 3/4
    then (score.floor : ℚ) + 1/2
  else (score.ceil : ℚ)

/-- JavaScript truthiness of a nullable number: null/undefined and 0 are falsy. -/
def bandTruthy : Option ℚ → Bool
  | none => false
  | some v => v != 0

/-- Embedding of calculateAverageBand (authController.js lines 586 to 594). -/
def calculateAverageBand (task1Band task2Band : Option ℚ) : ℚ :=
  if !bandTruthy task1Band && !bandTruthy task2Band then 0
  else if !bandTruthy task1Band then roundBandScore (task2Band.getD 0)
  else if !bandTruthy task2Band then roundBandScore (task1Band.getD 0)
  else roundBandScore ((task1Band.getD 0 + 2 * task2Band.getD 0) / 3)

/-- The rounding rule exactly as the spec words it: fractional part below 1/4
rounds to the floor, in [1/4, 3/4) to floor + 1/2, at or above 3/4 to the
ceiling.  Stated separately from the code embedding so the two can be
compared. -/
def specBandRound (score : ℚ) : ℚ :=
  if score - (score.floor : ℚ) < 1/4 then (score.floor : ℚ)
  else if score - (score.floor : ℚ) < 3/4 then (score.floor : ℚ) + 1/2
  else (score.ceil : ℚ)

/-- A band as the spec describes it: 0 to 9 in half-point steps, or absent. -/
def validBand (b : Option ℚ) : Prop :=
  b = none ∨ ∃ k : Fin 19, b = some (((k : ℕ) : ℚ) / 2)

/-- A band that is 0.5 to 9 in half-point steps, or absent: the domain on
which the aggregation claim actually holds, since the code treats a band
equal to 0 like an absent band. -/
def validPosBand (b : Option ℚ) : Prop :=
  b = none ∨ ∃ k : Fin 19, (k : ℕ) ≠ 0 ∧ b = some (((k : ℕ) : ℚ) / 2)

/-! ## Data model for writing-test submission handlers -/

/-- One element of the answers array of a submission request body.
answer_text = "" models a null/undefined/empty (falsy) text; word_count = 0
models a null/undefined/0 (falsy) count. -/
structure Answer where
  task_number : ℕ
  answer_text : String
  word_count : ℕ
deriving DecidableEq

/-- A writing_questions row attached to a test. -/
structure WritingQuestion where
  task_number : ℕ
  question_text : String
  word_limit : ℕ
deriving DecidableEq

/-- A tests row with its writing questions. -/
structure Test where
  id : ℕ
  writing_questions : List WritingQuestion
deriving DecidableEq

/-- The per-task object of the AI evaluation JSON.  crit1 stands for
task_achievement (task 1) / task_response (task 2); the tokens_used and
estimated_cost metadata of the source are irrelevant to every claim and
omitted. -/
structure TaskEval where
  crit1 : ℚ
  crit1_details : String
  coherence_cohesion : ℚ
  coherence_cohesion_details : String
  lexical_resource : ℚ
  lexical_resource_details : String
  grammatical_accuracy : ℚ
  grammatical_accuracy_details : String
  overall_band : ℚ
  feedback : String
  improvements : List String
deriving DecidableEq

/-- The AI evaluation JSON: one optional object per task. -/
structure AiEval where
  task1 : Option TaskEval
  task2 : Option TaskEval
deriving DecidableEq

/-- A writing_submissions row.  String "" and count 0 model stored NULLs,
matching how the handlers only ever test these fields for truthiness. -/
structure Submission where
  id : ℕ
  user_id : ℕ
  test_id : ℕ
  task1_answer : String
  task1_word_count : ℕ
  task2_answer : String
  task2_word_count : ℕ
  time_taken : ℕ
  ai_evaluation : Option AiEval
  overall_band_score : ℚ
  status : String
  expert_feedback : String
  expert_score : Option ℚ
  expert_feedback_sent : Bool
  created_at : ℕ
  updated_at : ℕ
deriving DecidableEq

/-- Response messages, abstracting the string templates of the source. -/
inductive RespMsg where
  | invalidSubmission
  | notAuthenticated
  | testNotFound
  | wordCountLow (task : ℕ) (minWords : ℕ)
  | bothTasksEmpty
  | evalFailed (msg : String)
  | testSubmitted
  | submissionIdRequired
  | submissionNotFound
  | unauthorizedAccess
  | alreadyRequested
  | reviewRequested
  | expertFieldsRequired
  | requestNotFound
  | reviewSubmitted
deriving DecidableEq

/-- An HTTP response: error with status code, or success. -/
inductive Resp where
  | err (status : ℕ) (msg : RespMsg)
  | ok (msg : RespMsg)
deriving DecidableEq

/-- Outcome of a submit handler: the response and the submission row the
handler wrote (created or updated), none when it wrote nothing.  Every
error return in the source happens before the prisma create/update call,
which the embedding mirrors by pairing each error response with none. -/
structure SubmitOutcome where
  resp : Resp
  written : Option Submission
deriving DecidableEq

/-! ## AI evaluation adapter (openaiService.js evaluateWritingTest) -/

/-- Task data sent to the provider. -/
structure TaskSubmission where
  question : String
  answer : String
  wordCount : ℕ
deriving DecidableEq

/-- The submissionData object: at most one entry per task. -/
structure SubmissionData where
  task1 : Option TaskSubmission
  task2 : Option TaskSubmission
deriving DecidableEq

/-- What the external provider call would do: return a parsed evaluation
JSON, or throw (network error, non-JSON reply, and so on). -/
inductive ProviderOutcome where
  | ok (eval : AiEval)
  | fail (msg : String)
deriving DecidableEq

/-- Return value of evaluateWritingTest; error = "" models an absent error
field. -/
structure EvalResult where
  success : Bool
  error : String
  data : Option AiEval
deriving DecidableEq

/-- The zero evaluation the source splices in for an unanswered task 1. -/
def zeroTask1Eval : TaskEval :=
  { crit1 := 0
    crit1_details := "No answer was provided for this task."
    coherence_cohesion := 0
    coherence_cohesion_details := "No answer was provided for this task."
    lexical_resource := 0
    lexical_resource_details := "No answer was provided for this task."
    grammatical_accuracy := 0
    grammatical_accuracy_details := "No answer was provided for this task."
    overall_band := 0
    feedback := "No answer submitted for Task 1."
    improvements := ["Please attempt Task 1 in your next submission."] }

/-- The zero evaluation the source splices in for an unanswered task 2. -/
def zeroTask2Eval : TaskEval :=
  { crit1 := 0
    crit1_details := "No answer was provided for this task."
    coherence_cohesion := 0
    coherence_cohesion_details := "No answer was provided for this task."
    lexical_resource := 0
    lexical_resource_details := "No answer was provided for this task."
    grammatical_accuracy := 0
    grammatical_accuracy_details := "No answer was provided for this task."
    overall_band := 0
    feedback := "No answer submitted for Task 2."
    improvements := ["Please attempt Task 2 in your next submission."] }

/-- Embedding of evaluateWritingTest (openaiService.js lines 490 to 578):
on a provider throw the catch block returns success false with data null;
on success the parsed evaluation is returned after splicing in zero bands
for tasks that were not submitted and not evaluated. -/
def evaluateWritingTest (sd : SubmissionData) (provider : ProviderOutcome) :
    EvalResult :=
  match provider with
  | .fail msg =>
      { success := false
        error := if msg = "" then "Failed to evaluate writing test" else msg
        data := none }
  | .ok ev =>
      { success := true
        error := ""
        data := some
          { task1 := if sd.task1.isNone && ev.task1.isNone
                       then some zeroTask1Eval else ev.task1
            task2 := if sd.task2.isNone && ev.task2.isNone
                       then some zeroTask2Eval else ev.task2 } }

/-! ## Shared helpers of the submit handlers -/

/-- answers.find of the element for a given task number. -/
def findTask (answers : List Answer) (n : ℕ) : Option Answer :=
  answers.find? (fun a => a.task_number == n)

/-- test.writing_questions.find of the question for a given task number. -/
def findQuestion (test : Test) (n : ℕ) : Option WritingQuestion :=
  test.writing_questions.find? (fun q => q.task_number == n)

/-- Math.ceil(word_limit * 0.5) on a natural word limit. -/
def minWordsOf (q : WritingQuestion) : ℕ := (q.word_limit + 1) / 2

/-- The word-count gate of takeTest/writingTestController.js line 355/365:
the task is checked when the answer element exists and its answer_text is
truthy. -/
def wordCountReject_wtc (test : Test) (a? : Option Answer) (n : ℕ) :
    Option Resp :=
  match a? with
  | none => none
  | some a =>
      if a.answer_text != "" then
        match findQuestion test n with
        | some q =>
            if a.word_count < minWordsOf q then
              some (.err 400 (.wordCountLow n (minWordsOf q)))
            else none
        | none => none
      else none

/-- The word-count gate of userController.js line 947/957: the task is
checked when the answer element exists and its word_count is positive. -/
def wordCountReject_uc (test : Test) (a? : Option Answer) (n : ℕ) :
    Option Resp :=
  match a? with
  | none => none
  | some a =>
      if a.word_count != 0 then
        match findQuestion test n with
        | some q =>
            if a.word_count < minWordsOf q then
              some (.err 400 (.wordCountLow n (minWordsOf q)))
            else none
        | none => none
      else none

/-- The submissionData entry built for a task (question text defaulting to
"" when the question row is missing). -/
def buildTaskSubmission (test : Test) (a : Answer) (n : ℕ) : TaskSubmission :=
  { question := match findQuestion test n with
                | some q => q.question_text
                | none => ""
    answer := a.answer_text
    wordCount := a.word_count }

/-- submissionData entry per takeTest/writingTestController.js lines
378/387: included when the answer element exists with truthy answer_text. -/
def sdTask_wtc (test : Test) (a? : Option Answer) (n : ℕ) :
    Option TaskSubmission :=
  match a? with
  | some a =>
      if a.answer_text != "" then some (buildTaskSubmission test a n) else none
  | none => none

/-- submissionData entry per userController.js lines 970/979: included when
the task has new content (positive word_count) and truthy answer_text. -/
def sdTask_uc (test : Test) (a? : Option Answer) (n : ℕ) :
    Option TaskSubmission :=
  match a? with
  | some a =>
      if a.word_count != 0 && a.answer_text != "" then
        some (buildTaskSubmission test a n)
      else none
  | none => none

/-- task band read out of a merged evaluation with || null: an overall_band
of 0 becomes null before calculateAverageBand sees it. -/
def bandOf (t : Option TaskEval) : Option ℚ :=
  match t with
  | some e => if e.overall_band = 0 then none else some e.overall_band
  | none => none

/-- The task1 component of a nullable stored evaluation. -/
def evalTask1 : Option AiEval → Option TaskEval
  | some e => e.task1
  | none => none

/-- The task2 component of a nullable stored evaluation. -/
def evalTask2 : Option AiEval → Option TaskEval
  | some e => e.task2
  | none => none

/-- hasTaskContent of userController.js lines 909/910: the answer element
exists and its word_count is positive. -/
def hasNewContent (a? : Option Answer) : Bool :=
  match a? with
  | some a => a.word_count != 0
  | none => false

/-- answer_text of an optional answer element, "" when absent. -/
def answerTextOf (a? : Option Answer) : String :=
  match a? with
  | some a => a.answer_text
  | none => ""

/-- word_count of an optional answer element, 0 when absent. -/
def wordCountOf (a? : Option Answer) : ℕ :=
  match a? with
  | some a => a.word_count
  | none => 0

/-- The retained previous task of userController.js lines 922 to 934:
present when the stored answer is truthy and the task is not resupplied. -/
def existingTaskOf (stored_answer : String) (stored_wc : ℕ) (hasNew : Bool) :
    Option (String × ℕ) :=
  if stored_answer != "" && !hasNew then some (stored_answer, stored_wc)
  else none

/-! ## Merge-on-resubmit handler (userController.js submitWritingTest) -/

/-- Merge of evaluations and answers plus the row write, userController.js
lines 1000 to 1053. -/
def ucSave (uid test_id : ℕ) (existing? : Option Submission)
    (task1Answer task2Answer : Option Answer)
    (existingTask1 existingTask2 : Option (String × ℕ))
    (existingAiEval : Option AiEval) (newEvaluation : AiEval)
    (time_taken now : ℕ) : SubmitOutcome :=
  let hasTask1Content := hasNewContent task1Answer
  let hasTask2Content := hasNewContent task2Answer
  let finalEvaluation : AiEval :=
    { task1 := if hasTask1Content then newEvaluation.task1
               else evalTask1 existingAiEval
      task2 := if hasTask2Content then newEvaluation.task2
               else evalTask2 existingAiEval }
  let overallBand :=
    calculateAverageBand (bandOf finalEvaluation.task1)
      (bandOf finalEvaluation.task2)
  let finalTask1Answer :=
    if hasTask1Content then answerTextOf task1Answer
    else match existingTask1 with
         | some p => p.1
         | none => ""
  let finalTask1WordCount :=
    if hasTask1Content then wordCountOf task1Answer
    else match existingTask1 with
         | some p => p.2
         | none => 0
  let finalTask2Answer :=
    if hasTask2Content then answerTextOf task2Answer
    else match existingTask2 with
         | some p => p.1
         | none => ""
  let finalTask2WordCount :=
    if hasTask2Content then wordCountOf task2Answer
    else match existingTask2 with
         | some p => p.2
         | none => 0
  match existing? with
  | some e =>
      { resp := .ok .testSubmitted
        written := some { e with
          task1_answer := finalTask1Answer
          task1_word_count := finalTask1WordCount
          task2_answer := finalTask2Answer
          task2_word_count := finalTask2WordCount
          time_taken := e.time_taken + time_taken
          ai_evaluation := some finalEvaluation
          overall_band_score := overallBand
          status := "evaluated"
          updated_at := now } }
  | none =>
      { resp := .ok .testSubmitted
        written := some
          { id := 0
            user_id := uid
            test_id := test_id
            task1_answer := finalTask1Answer
            task1_word_count := finalTask1WordCount
            task2_answer := finalTask2Answer
            task2_word_count := finalTask2WordCount
            time_taken := time_taken
            ai_evaluation := some finalEvaluation
            overall_band_score := overallBand
            status := "evaluated"
            expert_feedback := ""
            expert_score := none
            expert_feedback_sent := false
            created_at := now
            updated_at := now } }

/-- Embedding of submitWritingTest of userController.js lines 868 to 1079
(merge-on-resubmit variant).  existing? is the result of the
writing_submissions.findFirst lookup for (user, test); provider is the
outcome the OpenAI call would have. -/
def submitWritingTest_uc (test_id : ℕ) (userId : Option ℕ)
    (existing? : Option Submission) (test? : Option Test)
    (answers : List Answer) (time_taken : ℕ)
    (provider : ProviderOutcome) (now : ℕ) : SubmitOutcome :=
  if test_id = 0 then { resp := .err 400 .invalidSubmission, written := none }
  else
    match userId with
    | none => { resp := .err 401 .notAuthenticated, written := none }
    | some uid =>
      match test? with
      | none => { resp := .err 404 .testNotFound, written := none }
      | some test =>
        let task1Answer := findTask answers 1
        let task2Answer := findTask answers 2
        let hasTask1Content := hasNewContent task1Answer
        let hasTask2Content := hasNewContent task2Answer
        let existingTask1 :=
          match existing? with
          | some e =>
              existingTaskOf e.task1_answer e.task1_word_count hasTask1Content
          | none => none
        let existingTask2 :=
          match existing? with
          | some e =>
              existingTaskOf e.task2_answer e.task2_word_count hasTask2Content
          | none => none
        let existingAiEval : Option AiEval :=
          match existing? with
          | some e => e.ai_evaluation
          | none => none
        if !(hasTask1Content || existingTask1.isSome) &&
           !(hasTask2Content || existingTask2.isSome) then
          { resp := .err 400 .bothTasksEmpty, written := none }
        else
          match wordCountReject_uc test task1Answer 1 with
          | some r => { resp := r, written := none }
          | none =>
            match wordCountReject_uc test task2Answer 2 with
            | some r => { resp := r, written := none }
            | none =>
              let sd : SubmissionData :=
                { task1 := sdTask_uc test task1Answer 1
                  task2 := sdTask_uc test task2Answer 2 }
              if sd.task1.isSome || sd.task2.isSome then
                let r := evaluateWritingTest sd provider
                if !r.success then
                  { resp := .err 500 (.evalFailed
                      (if r.error = "" then "Failed to evaluate test"
                       else r.error))
                    written := none }
                else
                  ucSave uid test_id existing? task1Answer task2Answer
                    existingTask1 existingTask2 existingAiEval
                    (r.data.getD { task1 := none, task2 := none })
                    time_taken now
              else
                ucSave uid test_id existing? task1Answer task2Answer
                  existingTask1 existingTask2 existingAiEval
                  { task1 := none, task2 := none } time_taken now

/-! ## Always-create handler (takeTest/writingTestController.js
submitWritingTest) -/

/-- Embedding of submitWritingTest of takeTest/writingTestController.js
lines 322 to 449: no merge with an existing row, the provider is always
called, and a fresh row is created on success. -/
def submitWritingTest_wtc (test_id : ℕ) (userId : Option ℕ)
    (test? : Option Test) (answers : List Answer) (time_taken : ℕ)
    (provider : ProviderOutcome) (now : ℕ) : SubmitOutcome :=
  if test_id = 0 then { resp := .err 400 .invalidSubmission, written := none }
  else
    match userId with
    | none => { resp := .err 401 .notAuthenticated, written := none }
    | some uid =>
      match test? with
      | none => { resp := .err 404 .testNotFound, written := none }
      | some test =>
        let task1Answer := findTask answers 1
        let task2Answer := findTask answers 2
        match wordCountReject_wtc test task1Answer 1 with
        | some r => { resp := r, written := none }
        | none =>
          match wordCountReject_wtc test task2Answer 2 with
          | some r => { resp := r, written := none }
          | none =>
            let sd : SubmissionData :=
              { task1 := sdTask_wtc test task1Answer 1
                task2 := sdTask_wtc test task2Answer 2 }
            let r := evaluateWritingTest sd provider
            if !r.success then
              { resp := .err 500 (.evalFailed
                  (if r.error = "" then "Failed to evaluate test"
                   else r.error))
                written := none }
            else
              let ev := r.data.getD { task1 := none, task2 := none }
              let overallBand :=
                calculateAverageBand (bandOf ev.task1) (bandOf ev.task2)
              { resp := .ok .testSubmitted
                written := some
                  { id := 0
                    user_id := uid
                    test_id := test_id
                    task1_answer := answerTextOf task1Answer
                    task1_word_count := wordCountOf task1Answer
                    task2_answer := answerTextOf task2Answer
                    task2_word_count := wordCountOf task2Answer
                    time_taken := time_taken
                    ai_evaluation := some ev
                    overall_band_score := overallBand
                    status := "evaluated"
                    expert_feedback := ""
                    expert_score := none
                    expert_feedback_sent := false
                    created_at := now
                    updated_at := now } }

/-! ## Expert review workflow (takeTest/expertReviewController.js) -/

/-- An expert_review_requests row. -/
structure ReviewRequest where
  id : ℕ
  submission_id : ℕ
  user_id : ℕ
  status : String
  requested_at : ℕ
  reviewed_at : Option ℕ
  admin_notes : String
  created_at : ℕ
  updated_at : ℕ
deriving DecidableEq

/-- The database state the expert-review handlers touch. -/
structure ReviewState where
  submissions : List Submission
  requests : List ReviewRequest
deriving DecidableEq

/-- prisma writing_submissions.findUnique by id. -/
def findSubmissionById (st : ReviewState) (sid : ℕ) : Option Submission :=
  st.submissions.find? (fun s => s.id == sid)

/-- prisma expert_review_requests.findUnique by submission_id. -/
def findRequestBySubmission (st : ReviewState) (sid : ℕ) :
    Option ReviewRequest :=
  st.requests.find? (fun r => r.submission_id == sid)

/-- prisma expert_review_requests.findUnique by id. -/
def findRequestById (st : ReviewState) (rid : ℕ) : Option ReviewRequest :=
  st.requests.find? (fun r => r.id == rid)

/-- Embedding of requestExpertReview (expertReviewController.js lines 7 to
77).  submission_id = 0 models a falsy request body value; newId is the id
the database would assign to the created row. -/
def requestExpertReview (st : ReviewState) (userId : Option ℕ)
    (submission_id : ℕ) (newId now : ℕ) : Resp × ReviewState :=
  match userId with
  | none => (.err 401 .notAuthenticated, st)
  | some uid =>
    if submission_id = 0 then (.err 400 .submissionIdRequired, st)
    else
      match findSubmissionById st submission_id with
      | none => (.err 404 .submissionNotFound, st)
      | some sub =>
        if sub.user_id != uid then (.err 403 .unauthorizedAccess, st)
        else
          match findRequestBySubmission st submission_id with
          | some _ => (.err 409 .alreadyRequested, st)
          | none =>
            (.ok .reviewRequested,
             { st with requests := st.requests ++
                [{ id := newId
                   submission_id := submission_id
                   user_id := uid
                   status := "pending"
                   requested_at := now
                   reviewed_at := none
                   admin_notes := ""
                   created_at := now
                   updated_at := now }] })

/-- At most one expert review request per submission: no two stored request
rows share a submission_id. -/
def atMostOnePerSubmission (st : ReviewState) : Prop :=
  st.requests.Pairwise (fun a b => a.submission_id ≠ b.submission_id)

/-- Embedding of submitExpertReview (expertReviewController.js lines 427 to
492).  expert_evaluation = "" models a falsy body value (the object is
stored JSON-stringified, modelled as the string itself); a score of 0 is
falsy and rejected by the source validation. -/
def submitExpertReview (st : ReviewState) (requestId : ℕ)
    (expert_evaluation : String) (expert_overall_score : ℚ)
    (admin_notes : String) (status : String) (now : ℕ) : Resp × ReviewState :=
  if expert_evaluation = "" || expert_overall_score == 0 then
    (.err 400 .expertFieldsRequired, st)
  else
    match findRequestById st requestId with
    | none => (.err 404 .requestNotFound, st)
    | some req =>
      (.ok .reviewSubmitted,
       { submissions := st.submissions.map (fun s =>
           if s.id == req.submission_id then
             { s with
               expert_feedback := expert_evaluation
               expert_score := some expert_overall_score
               expert_feedback_sent := true
               updated_at := now }
           else s)
         requests := st.requests.map (fun r =>
           if r.id == requestId then
             { r with
               status := if status = "" then "completed" else status
               reviewed_at := some now
               admin_notes := admin_notes
               updated_at := now }
           else r) })

/-- The fields of a submission row that submitExpertReview must not touch. -/
def subFrame (s : Submission) :
    ℕ × ℕ × ℕ × String × ℕ × String × ℕ × ℕ × Option AiEval × ℚ × String × ℕ :=
  (s.id, s.user_id, s.test_id, s.task1_answer, s.task1_word_count,
   s.task2_answer, s.task2_word_count, s.time_taken, s.ai_evaluation,
   s.overall_band_score, s.status, s.created_at)

/-- The identifying fields of a review request that submitExpertReview must
not touch. -/
def reqFrame (r : ReviewRequest) : ℕ × ℕ × ℕ × ℕ × ℕ :=
  (r.id, r.submission_id, r.user_id, r.requested_at, r.created_at)

/-! ## Authentication middleware (middleware/auth.js authenticate) -/

/-- Result of jwt.verify on the presented token. -/
inductive TokenOutcome where
  | valid (id : ℕ)
  | invalid
  | expired
  | otherError
deriving DecidableEq

/-- A users row as the middleware reads it. -/
structure DbUser where
  id : ℕ
  email : String
  name : String
  auth_provider : String
  status : String
deriving DecidableEq

/-- The user object the middleware attaches to the request. -/
structure AttachedUser where
  id : ℕ
  email : String
  name : String
  authProvider : String
  roles : List String
  isAdmin : Bool
deriving DecidableEq

/-- Middleware outcome: an error response, or control passed to the next
handler with the attached user.  A reject never invokes the downstream
handler. -/
inductive AuthOutcome where
  | reject (status : ℕ) (message : String)
  | proceed (user : AttachedUser)
deriving DecidableEq

/-- String.startsWith of the source, modelled as character-list prefix so
that it evaluates on literals. -/
def strStartsWith (s p : String) : Bool := p.data.isPrefixOf s.data

/-- Splitting a character list at every occurrence of a separator, keeping
empty pieces, exactly like the JavaScript String.split. -/
def splitOnChar (c : Char) (l : List Char) : List (List Char) :=
  match l with
  | [] => [[]]
  | x :: xs =>
    match splitOnChar c xs with
    | [] => [[]]
    | y :: ys => if x == c then [] :: y :: ys else (x :: y) :: ys

/-- The JavaScript authHeader.split(" ") on a string. -/
def splitString (sep : Char) (s : String) : List String :=
  (splitOnChar sep s.data).map String.mk

/-- Embedding of authenticate (middleware/auth.js lines 622 to 686 in the
concatenated authController source).  verify models jwt.verify on the token
string, findUser the users.findUnique lookup, rolesOf the
model_has_roles.findMany role-name extraction. -/
def authenticate (authHeader : Option String) (secretConfigured : Bool)
    (verify : String → TokenOutcome) (findUser : ℕ → Option DbUser)
    (rolesOf : ℕ → List String) : AuthOutcome :=
  match authHeader with
  | none => .reject 401 "No token provided"
  | some h =>
    if !strStartsWith h "Bearer " then .reject 401 "No token provided"
    else
      if !secretConfigured then .reject 500 "JWT_SECRET is not configured"
      else
        match verify ((splitString ' ' h).getD 1 "") with
        | .invalid => .reject 401 "Invalid token"
        | .expired => .reject 401 "Token expired"
        | .otherError => .reject 500 "verification error"
        | .valid uid =>
          match findUser uid with
          | none => .reject 404 "User not found"
          | some u =>
            if u.status != "1" then .reject 403 "User account is inactive"
            else
              .proceed
                { id := u.id
                  email := u.email
                  name := u.name
                  authProvider := u.auth_provider
                  roles := rolesOf u.id
                  isAdmin := (rolesOf u.id).contains "admin" }

/-- Does a response come from the word-count check? -/
def isWordCountErr : Resp → Bool
  | .err _ (.wordCountLow _ _) => true
  | _ => false

/-! ## Sample rows for concrete instantiations -/

/-- A concrete stored submission used to instantiate theorems. -/
def sampleSubmission : Submission :=
  { id := 5
    user_id := 1
    test_id := 3
    task1_answer := "a"
    task1_word_count := 100
    task2_answer := ""
    task2_word_count := 0
    time_taken := 10
    ai_evaluation := none
    overall_band_score := 6
    status := "evaluated"
    expert_feedback := ""
    expert_score := none
    expert_feedback_sent := false
    created_at := 0
    updated_at := 0 }

/-- A concrete pending review request for sampleSubmission. -/
def sampleRequest : ReviewRequest :=
  { id := 9
    submission_id := 5
    user_id := 1
    status := "pending"
    requested_at := 0
    reviewed_at := none
    admin_notes := ""
    created_at := 0
    updated_at := 0 }

/-- A concrete review state holding the sample submission and request. -/
def sampleReviewState : ReviewState :=
  { submissions := [sampleSubmission], requests := [sampleRequest] }

/-- A concrete task 1 question with word limit 150 (minimum 75). -/
def sampleQ1 : WritingQuestion :=
  { task_number := 1, question_text := "Q1", word_limit := 150 }

/-- A concrete task 2 question with word limit 250 (minimum 125). -/
def sampleQ2 : WritingQuestion :=
  { task_number := 2, question_text := "Q2", word_limit := 250 }

/-- A concrete test with both writing questions. -/
def sampleTest : Test := { id := 3, writing_questions := [sampleQ1, sampleQ2] }

/-- A concrete per-task AI evaluation with overall band 7. -/
def sampleEval : TaskEval :=
  { crit1 := 7
    crit1_details := "d"
    coherence_cohesion := 7
    coherence_cohesion_details := "d"
    lexical_resource := 7
    lexical_resource_details := "d"
    grammatical_accuracy := 7
    grammatical_accuracy_details := "d"
    overall_band := 7
    feedback := "f"
    improvements := [] }

/-- A concrete provider evaluation carrying only a task 2 evaluation. -/
def sampleAiEval : AiEval := { task1 := none, task2 := some sampleEval }

/-- A compliant task 2 answer: 130 words, above the 125-word minimum. -/
def sampleAnswer2 : Answer :=
  { task_number := 2, answer_text := "essay text", word_count := 130 }

/-- A task 1 answer with content but only 10 words, below the 75 minimum. -/
def shortAnswer1 : Answer :=
  { task_number := 1, answer_text := "short", word_count := 10 }

/-! ## Claims about band aggregation -/

/-- The implemented rounding agrees with the rounding rule as the spec words
it, for every rational score. -/
theorem roundBandScore_eq_spec (q : ℚ) : roundBandScore q = specBandRound q := by
  unfold roundBandScore specBandRound
  rcases lt_or_le (q - (q.floor : ℚ)) (1/4) with h1 | h1
  · rw [if_pos h1, if_pos h1]
  · rw [if_neg (not_lt.mpr h1), if_neg (not_lt.mpr h1)]
    rcases lt_or_le (q - (q.floor : ℚ)) (3/4) with h2 | h2
    · rw [if_pos ⟨h1, h2⟩, if_pos h2]
    · rw [if_neg (fun hc => absurd hc.2 (not_lt.mpr h2)), if_neg (not_lt.mpr h2)]

/-- Claim C1 (counterexample): with both bands present and task1Band = 0
(a value the claim admits, since 0 is a band in its stated 0 to 9 range),
the code does not return the rounded weighted average the claim demands:
calculateAverageBand 0 7 is 7, not the rounded (0 + 2 * 7) / 3 = 4.5. -/
theorem claim_C1_counterexample :
    validBand (some 0) ∧ validBand (some 7) ∧
    calculateAverageBand (some 0) (some 7) ≠ specBandRound ((0 + 2 * 7) / 3) := by
  refine ⟨Or.inr ⟨⟨0, by norm_num⟩, by norm_num⟩,
          Or.inr ⟨⟨14, by norm_num⟩, by norm_num⟩, ?_⟩
  norm_num [calculateAverageBand, bandTruthy, roundBandScore, specBandRound,
    Rat.floor, Rat.ceil]

/-- Claim C1 (amended): for bands that are 0.5 to 9 in half-point steps or
absent (a band equal to 0 is treated by the code like an absent band),
calculateAverageBand returns 0 when both are absent, the task2 band rounded
when only task2 is present, the task1 band rounded when only task1 is
present, and otherwise the rounded (task1 + 2 * task2) / 3, with rounding
exactly as the spec describes it. -/
theorem claim_C1 (t1 t2 : Option ℚ)
    (h1 : validPosBand t1) (h2 : validPosBand t2) :
    calculateAverageBand t1 t2 =
      match t1, t2 with
      | none, none => 0
      | none, some b => specBandRound b
      | some a, none => specBandRound a
      | some a, some b => specBandRound ((a + 2 * b) / 3) := by
  have hne : ∀ k : Fin 19, (k : ℕ) ≠ 0 → (((k : ℕ) : ℚ) / 2) ≠ 0 := by
    intro k hk
    have : ((k : ℕ) : ℚ) ≠ 0 := Nat.cast_ne_zero.mpr hk
    positivity
  rcases h1 with rfl | ⟨k1, hk1, rfl⟩ <;> rcases h2 with rfl | ⟨k2, hk2, rfl⟩
  · simp [calculateAverageBand, bandTruthy]
  · have hb := hne k2 hk2
    simp [calculateAverageBand, bandTruthy, hb, roundBandScore_eq_spec]
  · have ha := hne k1 hk1
    simp [calculateAverageBand, bandTruthy, ha, roundBandScore_eq_spec]
  · have ha := hne k1 hk1
    have hb := hne k2 hk2
    simp [calculateAverageBand, bandTruthy, ha, hb, roundBandScore_eq_spec]

/-- Claim C1 witness: the amended theorem applied at task1 = 6, task2 = 7. -/
theorem claim_C1_witness :
    validPosBand (some 6) ∧ validPosBand (some 7) ∧
    calculateAverageBand (some 6) (some 7) = specBandRound ((6 + 2 * 7) / 3) := by
  have h1 : validPosBand (some 6) :=
    Or.inr ⟨⟨12, by norm_num⟩, by norm_num, by norm_num⟩
  have h2 : validPosBand (some 7) :=
    Or.inr ⟨⟨14, by norm_num⟩, by norm_num, by norm_num⟩
  exact ⟨h1, h2, claim_C1 (some 6) (some 7) h1 h2⟩

/-- Claim C4: the two worked examples of the spec. With task1 = 6.0 and
task2 = 7.0 the aggregate is (6 + 14) / 3 = 6.67 rounded down to 6.5; with
task1 absent and task2 = 6.25 the fractional part is exactly 0.25, which
rounds up to 6.5. -/
theorem claim_C4 :
    calculateAverageBand (some 6) (some 7) = 13/2 ∧
    calculateAverageBand none (some (25/4)) = 13/2 := by
  constructor <;>
    norm_num [calculateAverageBand, bandTruthy, roundBandScore, Rat.floor]

/-- Claim C10: calculateAverageBand treats a band score of 0 exactly like an
absent band, because the code uses JavaScript falsiness checks: with
task1Band = 0 the result is the rounded task2 band alone for every task2
(not the rounded (0 + 2 * task2) / 3, from which it differs, for example,
at task2 = 7), and both (0, 0) and (absent, absent) give 0. -/
theorem claim_C10 :
    (∀ b : Option ℚ, calculateAverageBand (some 0) b = calculateAverageBand none b) ∧
    (∀ b : ℚ, calculateAverageBand (some 0) (some b) = roundBandScore b) ∧
    calculateAverageBand (some 0) (some 0) = 0 ∧
    calculateAverageBand none none = 0 ∧
    calculateAverageBand (some 0) (some 7) ≠ roundBandScore ((0 + 2 * 7) / 3) := by
  refine ⟨?_, ?_, ?_, ?_, ?_⟩
  · intro b
    simp [calculateAverageBand, bandTruthy]
  · intro b
    by_cases hb : b = 0
    · subst hb
      norm_num [calculateAverageBand, bandTruthy, roundBandScore, Rat.floor]
    · simp [calculateAverageBand, bandTruthy, hb]
  · norm_num [calculateAverageBand, bandTruthy]
  · norm_num [calculateAverageBand, bandTruthy]
  · norm_num [calculateAverageBand, bandTruthy, roundBandScore, Rat.floor,
      Rat.ceil]

/-! ## Claims about authentication and expert review -/

/-- Claim C8: authenticate rejects every request whose bearer token is
missing, invalid or expired, and every request of an inactive account
(status not "1"), in each case answering with a reject (so the downstream
handler is never invoked); for a valid token of an active existing user it
proceeds, attaching the user together with its role set. -/
theorem claim_C8 (authHeader : Option String) (secretConfigured : Bool)
    (verify : String → TokenOutcome) (findUser : ℕ → Option DbUser)
    (rolesOf : ℕ → List String) :
    (authHeader = none →
      authenticate authHeader secretConfigured verify findUser rolesOf
        = .reject 401 "No token provided") ∧
    (∀ h, authHeader = some h → strStartsWith h "Bearer " = false →
      authenticate authHeader secretConfigured verify findUser rolesOf
        = .reject 401 "No token provided") ∧
    (∀ h, authHeader = some h → strStartsWith h "Bearer " = true →
      secretConfigured = true →
      verify ((splitString ' ' h).getD 1 "") = .invalid →
      authenticate authHeader secretConfigured verify findUser rolesOf
        = .reject 401 "Invalid token") ∧
    (∀ h, authHeader = some h → strStartsWith h "Bearer " = true →
      secretConfigured = true →
      verify ((splitString ' ' h).getD 1 "") = .expired →
      authenticate authHeader secretConfigured verify findUser rolesOf
        = .reject 401 "Token expired") ∧
    (∀ h uid u, authHeader = some h → strStartsWith h "Bearer " = true →
      secretConfigured = true →
      verify ((splitString ' ' h).getD 1 "") = .valid uid →
      findUser uid = some u → u.status ≠ "1" →
      authenticate authHeader secretConfigured verify findUser rolesOf
        = .reject 403 "User account is inactive") ∧
    (∀ h uid u, authHeader = some h → strStartsWith h "Bearer " = true →
      secretConfigured = true →
      verify ((splitString ' ' h).getD 1 "") = .valid uid →
      findUser uid = some u → u.status = "1" →
      authenticate authHeader secretConfigured verify findUser rolesOf
        = .proceed
            { id := u.id
              email := u.email
              name := u.name
              authProvider := u.auth_provider
              roles := rolesOf u.id
              isAdmin := (rolesOf u.id).contains "admin" }) := by
  refine ⟨?_, ?_, ?_, ?_, ?_, ?_⟩
  · intro hh
    subst hh
    rfl
  · intro h hh hs
    subst hh
    simp only [authenticate]
    rw [hs]
    rfl
  · intro h hh hs hsec hv
    subst hh hsec
    simp only [authenticate]
    rw [hs, hv]
    rfl
  · intro h hh hs hsec hv
    subst hh hsec
    simp only [authenticate]
    rw [hs, hv]
    rfl
  · intro h uid u hh hs hsec hv hu hst
    subst hh hsec
    simp only [authenticate]
    rw [hs]
    simp only [hv, hu]
    rw [show (u.status != "1") = true from bne_iff_ne.mpr hst]
    rfl
  · intro h uid u hh hs hsec hv hu hst
    subst hh hsec
    simp only [authenticate]
    rw [hs]
    simp only [hv, hu]
    rw [hst]
    rfl

/-- Claim C8 witness: a concrete valid bearer token of an active user
passes through with the role set attached. -/
theorem claim_C8_witness :
    authenticate (some "Bearer tok") true (fun _ => .valid 1)
        (fun _ => some { id := 1, email := "a", name := "b",
                         auth_provider := "google", status := "1" })
        (fun _ => ["admin"])
      = .proceed { id := 1, email := "a", name := "b",
                   authProvider := "google", roles := ["admin"],
                   isAdmin := true } := by
  have h := (claim_C8 (some "Bearer tok") true (fun _ => .valid 1)
      (fun _ => some { id := 1, email := "a", name := "b",
                       auth_provider := "google", status := "1" })
      (fun _ => ["admin"])).2.2.2.2.2
  exact (h "Bearer tok" 1 _ rfl (by decide) rfl rfl rfl rfl).trans (by decide)

/-- Claim C6: once the per-request guards pass, requestExpertReview answers
409 and leaves the state unchanged when a review request for the submission
already exists, and otherwise appends exactly one new request with status
pending; and for arbitrary inputs it preserves the at-most-one-request-
per-submission invariant. -/
theorem claim_C6 (st : ReviewState) (userId : Option ℕ) (sid newId now : ℕ) :
    (∀ uid sub, userId = some uid → sid ≠ 0 →
      findSubmissionById st sid = some sub → sub.user_id = uid →
      ((∀ req, findRequestBySubmission st sid = some req →
          requestExpertReview st userId sid newId now
            = (.err 409 .alreadyRequested, st)) ∧
       (findRequestBySubmission st sid = none →
          (requestExpertReview st userId sid newId now).1
              = .ok .reviewRequested ∧
          (requestExpertReview st userId sid newId now).2.requests
            = st.requests ++
              [{ id := newId
                 submission_id := sid
                 user_id := uid
                 status := "pending"
                 requested_at := now
                 reviewed_at := none
                 admin_notes := ""
                 created_at := now
                 updated_at := now }]))) ∧
    (atMostOnePerSubmission st →
      atMostOnePerSubmission (requestExpertReview st userId sid newId now).2) := by
  constructor
  · intro uid sub huid hsid hsub howner
    subst huid
    constructor
    · intro req hreq
      simp [requestExpertReview, hsid, hsub, howner, hreq]
    · intro hreq
      constructor <;> simp [requestExpertReview, hsid, hsub, howner, hreq]
  · intro hmo
    unfold requestExpertReview
    cases userId with
    | none => exact hmo
    | some uid =>
      by_cases hsid : sid = 0
      · simp only [if_pos hsid]
        exact hmo
      · simp only [if_neg hsid]
        cases hsub : findSubmissionById st sid with
        | none => exact hmo
        | some sub =>
          by_cases howner : (sub.user_id != uid) = true
          · simp only [howner, if_true]
            exact hmo
          · simp only [howner, Bool.false_eq_true, if_false]
            cases hreq : findRequestBySubmission st sid with
            | some r => exact hmo
            | none =>
              unfold atMostOnePerSubmission at hmo ⊢
              rw [List.pairwise_append]
              refine ⟨hmo, List.pairwise_singleton _ _, ?_⟩
              intro a ha b hb
              simp only [List.mem_singleton] at hb
              subst hb
              have hne := List.find?_eq_none.mp hreq a ha
              simpa using hne

/-- Claim C6 witness: the theorem applied at a concrete state holding one
submission and one pending request for it; a second request gets 409, the
state is unchanged and still satisfies the invariant. -/
theorem claim_C6_witness :
    requestExpertReview sampleReviewState (some 1) 5 10 7
      = (.err 409 .alreadyRequested, sampleReviewState) ∧
    atMostOnePerSubmission
      (requestExpertReview sampleReviewState (some 1) 5 10 7).2 := by
  have h := claim_C6 sampleReviewState (some 1) 5 10 7
  refine ⟨(h.1 1 sampleSubmission rfl (by decide) rfl rfl).1 sampleRequest rfl,
    h.2 ?_⟩
  unfold atMostOnePerSubmission sampleReviewState
  exact List.pairwise_singleton _ _

/-- Claim C9: submitExpertReview changes only the expert fields
(expert_feedback, expert_score, expert_feedback_sent) and updated_at of the
target submission and the status fields of the review request: on every
submission row the frame fields, among them overall_band_score,
ai_evaluation, the task answers and the word counts, are unchanged, so the
derived overall band is never overwritten by an expert review; and on the
target row the expert fields are set to the given review. -/
theorem claim_C9 (st : ReviewState) (requestId : ℕ)
    (expert_evaluation : String) (expert_overall_score : ℚ)
    (admin_notes : String) (status : String) (now : ℕ) :
    ((submitExpertReview st requestId expert_evaluation expert_overall_score
        admin_notes status now).2.submissions.map subFrame
       = st.submissions.map subFrame) ∧
    ((submitExpertReview st requestId expert_evaluation expert_overall_score
        admin_notes status now).2.requests.map reqFrame
       = st.requests.map reqFrame) ∧
    (∀ req, findRequestById st requestId = some req →
      expert_evaluation ≠ "" → expert_overall_score ≠ 0 →
      ∀ s, s ∈ (submitExpertReview st requestId expert_evaluation
          expert_overall_score admin_notes status now).2.submissions →
        s.id = req.submission_id →
        s.expert_feedback = expert_evaluation ∧
        s.expert_score = some expert_overall_score ∧
        s.expert_feedback_sent = true ∧
        s.updated_at = now) := by
  by_cases hval : expert_evaluation = "" ∨ expert_overall_score = 0
  · have hres : submitExpertReview st requestId expert_evaluation
        expert_overall_score admin_notes status now
        = (.err 400 .expertFieldsRequired, st) := by
      unfold submitExpertReview
      rcases hval with h | h <;> simp [h]
    refine ⟨by rw [hres], by rw [hres], ?_⟩
    intro req hreq hne hnz
    rcases hval with h | h
    · exact absurd h hne
    · exact absurd h hnz
  · push_neg at hval
    have hcond : (decide (expert_evaluation = "")
        || (expert_overall_score == 0)) = false := by
      simp [hval.1, hval.2]
    cases hreq : findRequestById st requestId with
    | none =>
      have hres : submitExpertReview st requestId expert_evaluation
          expert_overall_score admin_notes status now
          = (.err 404 .requestNotFound, st) := by
        unfold submitExpertReview
        rw [hcond]
        simp [hreq]
      refine ⟨by rw [hres], by rw [hres], ?_⟩
      intro req hreq2
      exact absurd hreq2 (by simp)
    | some req =>
      have hres : submitExpertReview st requestId expert_evaluation
          expert_overall_score admin_notes status now
          = (.ok .reviewSubmitted,
             { submissions := st.submissions.map (fun s =>
                 if s.id == req.submission_id then
                   { s with
                     expert_feedback := expert_evaluation
                     expert_score := some expert_overall_score
                     expert_feedback_sent := true
                     updated_at := now }
                 else s)
               requests := st.requests.map (fun r =>
                 if r.id == requestId then
                   { r with
                     status := if status = "" then "completed" else status
                     reviewed_at := some now
                     admin_notes := admin_notes
                     updated_at := now }
                 else r) }) := by
        unfold submitExpertReview
        rw [hcond]
        simp [hreq]
      refine ⟨?_, ?_, ?_⟩
      · rw [hres]
        rw [List.map_map]
        refine List.map_congr_left ?_
        intro s _
        by_cases hid : (s.id == req.submission_id) = true
        · simp [Function.comp, subFrame, hid]
        · simp only [Bool.not_eq_true] at hid
          simp [Function.comp, subFrame, hid]
      · rw [hres]
        rw [List.map_map]
        refine List.map_congr_left ?_
        intro r _
        by_cases hid : (r.id == requestId) = true
        · simp [Function.comp, reqFrame, hid]
        · simp only [Bool.not_eq_true] at hid
          simp [Function.comp, reqFrame, hid]
      · intro req2 hreq2 hne hnz s hs hsid
        have hreqeq : req2 = req := by
          simpa using hreq2.symm
        subst hreqeq
        rw [hres] at hs
        simp only [List.mem_map] at hs
        obtain ⟨t, _, rfl⟩ := hs
        by_cases hid : (t.id == req2.submission_id) = true
        · simp [hid]
        · exfalso
          rw [if_neg hid] at hsid
          exact hid (by simp [hsid])

/-- Claim C9 witness: the theorem applied at the sample state, request 9,
review text good with score 7 at time 3: the frame of every submission row
is unchanged and the target row carries the expert fields. -/
theorem claim_C9_witness :
    ((submitExpertReview sampleReviewState 9 "good" 7 "" "" 3).2.submissions.map
        subFrame
      = sampleReviewState.submissions.map subFrame) ∧
    ({ sampleSubmission with
        expert_feedback := "good"
        expert_score := some 7
        expert_feedback_sent := true
        updated_at := 3 }.expert_feedback = "good" ∧
     { sampleSubmission with
        expert_feedback := "good"
        expert_score := some 7
        expert_feedback_sent := true
        updated_at := 3 }.expert_score = some 7 ∧
     { sampleSubmission with
        expert_feedback := "good"
        expert_score := some 7
        expert_feedback_sent := true
        updated_at := 3 }.expert_feedback_sent = true ∧
     { sampleSubmission with
        expert_feedback := "good"
        expert_score := some 7
        expert_feedback_sent := true
        updated_at := 3 }.updated_at = 3) := by
  have h := claim_C9 sampleReviewState 9 "good" 7 "" "" 3
  refine ⟨h.1, h.2.2 sampleRequest rfl (by decide) (by decide) _ ?_ rfl⟩
  decide

/-! ## Helper lemmas about the submit handlers -/

/-- ucSave always answers with the success response. -/
theorem ucSave_resp (uid test_id : ℕ) (existing? : Option Submission)
    (a1 a2 : Option Answer) (et1 et2 : Option (String × ℕ))
    (eae : Option AiEval) (ne : AiEval) (tt now : ℕ) :
    (ucSave uid test_id existing? a1 a2 et1 et2 eae ne tt now).resp
      = .ok .testSubmitted := by
  unfold ucSave
  cases existing? <;> rfl

/-- A task contributing to submissionData in the merge handler has new
content. -/
theorem sdTask_uc_hasNew (test : Test) (a? : Option Answer) (n : ℕ)
    (h : sdTask_uc test a? n ≠ none) : hasNewContent a? = true := by
  cases a? with
  | none => exact absurd rfl h
  | some a =>
    simp only [sdTask_uc] at h
    by_cases hb : (a.word_count != 0 && a.answer_text != "") = true
    · simp only [Bool.and_eq_true] at hb
      simpa [hasNewContent] using hb.1
    · rw [if_neg hb] at h
      exact absurd rfl h

/-- A task without new content contributes nothing to submissionData in the
merge handler. -/
theorem sdTask_uc_of_no_content (test : Test) (a? : Option Answer) (n : ℕ)
    (h : hasNewContent a? = false) : sdTask_uc test a? n = none := by
  cases a? with
  | none => rfl
  | some a =>
    have hb : (a.word_count != 0) = false := by
      simpa [hasNewContent] using h
    simp [sdTask_uc, hb]

/-- A task with new content and truthy text contributes to submissionData
in the merge handler. -/
theorem sdTask_uc_isSome (test : Test) (a? : Option Answer) (n : ℕ)
    (h : hasNewContent a? = true) (ht : answerTextOf a? ≠ "") :
    (sdTask_uc test a? n).isSome = true := by
  cases a? with
  | none => exact absurd h (by simp [hasNewContent])
  | some a =>
    have h1 : (a.word_count != 0) = true := by
      simpa [hasNewContent] using h
    have h2 : (a.answer_text != "") = true := by
      simpa [answerTextOf, bne_iff_ne] using ht
    simp [sdTask_uc, h1, h2]

/-! ## Claims about the submit handlers -/

/-- Claim C3: when a merge-handler submission supplies no new content for
either task and there is no previously stored content to retain (no stored
row, or a stored row with both answers empty), the request is rejected with
400 and no submission row is written. -/
theorem claim_C3 (test_id uid : ℕ) (existing? : Option Submission)
    (test : Test) (answers : List Answer) (time_taken : ℕ)
    (provider : ProviderOutcome) (now : ℕ)
    (htid : test_id ≠ 0)
    (h1 : hasNewContent (findTask answers 1) = false)
    (h2 : hasNewContent (findTask answers 2) = false)
    (hstored : ∀ e, existing? = some e →
      e.task1_answer = "" ∧ e.task2_answer = "") :
    submitWritingTest_uc test_id (some uid) existing? (some test) answers
        time_taken provider now
      = { resp := .err 400 .bothTasksEmpty, written := none } := by
  cases existing? with
  | none =>
    simp [submitWritingTest_uc, htid, h1, h2, existingTaskOf]
  | some e =>
    obtain ⟨e1, e2⟩ := hstored e rfl
    simp [submitWritingTest_uc, htid, h1, h2, existingTaskOf, e1, e2]

/-- Claim C3 witness: an empty answers array against a test with no prior
submission is rejected with the both-tasks-empty error and nothing is
written. -/
theorem claim_C3_witness :
    submitWritingTest_uc 3 (some 1) none (some sampleTest) [] 0
        (.ok { task1 := none, task2 := none }) 0
      = { resp := .err 400 .bothTasksEmpty, written := none } :=
  claim_C3 3 1 none sampleTest [] 0 (.ok { task1 := none, task2 := none }) 0
    (by decide) rfl rfl (fun e h => by cases h)

/-- Claim C5: in both submit handlers, a submitted task that carries
content (per the respective gate of each handler) whose word count is below
Math.ceil(word_limit * 0.5) for its configured question causes the whole
submission to be rejected with HTTP 400 and nothing written; and when every
content-carrying task meets the threshold, the response is never the
word-count rejection. -/
theorem claim_C5 (test_id uid : ℕ) (existing? : Option Submission)
    (test : Test) (answers : List Answer) (time_taken : ℕ)
    (provider : ProviderOutcome) (now : ℕ)
    (htid : test_id ≠ 0) :
    (∀ a q, findTask answers 1 = some a → a.answer_text ≠ "" →
      findQuestion test 1 = some q → a.word_count < minWordsOf q →
      submitWritingTest_wtc test_id (some uid) (some test) answers time_taken
          provider now
        = { resp := .err 400 (.wordCountLow 1 (minWordsOf q))
            written := none }) ∧
    (∀ a q, wordCountReject_wtc test (findTask answers 1) 1 = none →
      findTask answers 2 = some a → a.answer_text ≠ "" →
      findQuestion test 2 = some q → a.word_count < minWordsOf q →
      submitWritingTest_wtc test_id (some uid) (some test) answers time_taken
          provider now
        = { resp := .err 400 (.wordCountLow 2 (minWordsOf q))
            written := none }) ∧
    (wordCountReject_wtc test (findTask answers 1) 1 = none →
     wordCountReject_wtc test (findTask answers 2) 2 = none →
     isWordCountErr (submitWritingTest_wtc test_id (some uid) (some test)
        answers time_taken provider now).resp = false) ∧
    (∀ a q, findTask answers 1 = some a → a.word_count ≠ 0 →
      findQuestion test 1 = some q → a.word_count < minWordsOf q →
      submitWritingTest_uc test_id (some uid) existing? (some test) answers
          time_taken provider now
        = { resp := .err 400 (.wordCountLow 1 (minWordsOf q))
            written := none }) ∧
    (∀ a q, wordCountReject_uc test (findTask answers 1) 1 = none →
      findTask answers 2 = some a → a.word_count ≠ 0 →
      findQuestion test 2 = some q → a.word_count < minWordsOf q →
      submitWritingTest_uc test_id (some uid) existing? (some test) answers
          time_taken provider now
        = { resp := .err 400 (.wordCountLow 2 (minWordsOf q))
            written := none }) ∧
    (wordCountReject_uc test (findTask answers 1) 1 = none →
     wordCountReject_uc test (findTask answers 2) 2 = none →
     isWordCountErr (submitWritingTest_uc test_id (some uid) existing?
        (some test) answers time_taken provider now).resp = false) := by
  refine ⟨?_, ?_, ?_, ?_, ?_, ?_⟩
  · intro a q ha htext hq hlt
    have hr : wordCountReject_wtc test (findTask answers 1) 1
        = some (.err 400 (.wordCountLow 1 (minWordsOf q))) := by
      rw [ha]
      simp [wordCountReject_wtc, htext, hq, hlt]
    simp [submitWritingTest_wtc, htid, hr]
  · intro a q hr1 ha htext hq hlt
    have hr : wordCountReject_wtc test (findTask answers 2) 2
        = some (.err 400 (.wordCountLow 2 (minWordsOf q))) := by
      rw [ha]
      simp [wordCountReject_wtc, htext, hq, hlt]
    simp [submitWritingTest_wtc, htid, hr1, hr]
  · intro hr1 hr2
    simp only [submitWritingTest_wtc, if_neg htid, hr1, hr2]
    split
    · rfl
    · rfl
  · intro a q ha hwc hq hlt
    have hc : hasNewContent (findTask answers 1) = true := by
      rw [ha]
      simp [hasNewContent, hwc]
    have hr : wordCountReject_uc test (findTask answers 1) 1
        = some (.err 400 (.wordCountLow 1 (minWordsOf q))) := by
      rw [ha]
      simp [wordCountReject_uc, hwc, hq, hlt]
    simp [submitWritingTest_uc, htid, hc, hr]
  · intro a q hr1 ha hwc hq hlt
    have hc : hasNewContent (findTask answers 2) = true := by
      rw [ha]
      simp [hasNewContent, hwc]
    have hr : wordCountReject_uc test (findTask answers 2) 2
        = some (.err 400 (.wordCountLow 2 (minWordsOf q))) := by
      rw [ha]
      simp [wordCountReject_uc, hwc, hq, hlt]
    simp [submitWritingTest_uc, htid, hc, hr1, hr]
  · intro hr1 hr2
    simp only [submitWritingTest_uc, if_neg htid, hr1, hr2]
    split
    · rfl
    · split
      · split
        · rfl
        · rw [ucSave_resp]
          rfl
      · rw [ucSave_resp]
        rfl

/-- Claim C5 witness: a task 1 answer of 10 words against a 150-word limit
is rejected with the word-count error by both handlers, and compliant
answers are not rejected by that check. -/
theorem claim_C5_witness :
    (submitWritingTest_wtc 3 (some 1) (some sampleTest) [shortAnswer1] 0
        (.ok { task1 := none, task2 := none }) 0
      = { resp := .err 400 (.wordCountLow 1 (minWordsOf sampleQ1))
          written := none }) ∧
    (submitWritingTest_uc 3 (some 1) none (some sampleTest) [shortAnswer1] 0
        (.ok { task1 := none, task2 := none }) 0
      = { resp := .err 400 (.wordCountLow 1 (minWordsOf sampleQ1))
          written := none }) ∧
    isWordCountErr (submitWritingTest_wtc 3 (some 1) (some sampleTest)
        [sampleAnswer2] 0 (.ok { task1 := none, task2 := none }) 0).resp
      = false ∧
    isWordCountErr (submitWritingTest_uc 3 (some 1) none (some sampleTest)
        [sampleAnswer2] 0 (.ok { task1 := none, task2 := none }) 0).resp
      = false := by
  have h1 := claim_C5 3 1 none sampleTest [shortAnswer1] 0
      (.ok { task1 := none, task2 := none }) 0 (by decide)
  have h2 := claim_C5 3 1 none sampleTest [sampleAnswer2] 0
      (.ok { task1 := none, task2 := none }) 0 (by decide)
  exact ⟨h1.1 shortAnswer1 sampleQ1 rfl (by decide) rfl (by decide),
    h1.2.2.2.1 shortAnswer1 sampleQ1 rfl (by decide) rfl (by decide),
    h2.2.2.1 rfl (by decide),
    h2.2.2.2.2.2 rfl (by decide)⟩

/-- Claim C7: when the provider call throws, evaluateWritingTest returns a
failure result with success false and data null, and each submit handler
(once its validations pass, and, for the merge handler, when at least one
task is being re-evaluated so the provider is actually called) answers
HTTP 500 and writes nothing; the handlers call the provider once, with no
retry. -/
theorem claim_C7 (sdX : SubmissionData) (failMsg : String)
    (test_id uid : ℕ) (existing? : Option Submission) (test : Test)
    (answers : List Answer) (time_taken now : ℕ)
    (htid : test_id ≠ 0)
    (hw1 : wordCountReject_wtc test (findTask answers 1) 1 = none)
    (hw2 : wordCountReject_wtc test (findTask answers 2) 2 = none)
    (hu1 : wordCountReject_uc test (findTask answers 1) 1 = none)
    (hu2 : wordCountReject_uc test (findTask answers 2) 2 = none)
    (hsd : sdTask_uc test (findTask answers 1) 1 ≠ none ∨
           sdTask_uc test (findTask answers 2) 2 ≠ none) :
    ((evaluateWritingTest sdX (.fail failMsg)).success = false ∧
     (evaluateWritingTest sdX (.fail failMsg)).data = none) ∧
    (submitWritingTest_wtc test_id (some uid) (some test) answers time_taken
        (.fail failMsg) now
      = { resp := .err 500 (.evalFailed
            (if failMsg = "" then "Failed to evaluate writing test"
             else failMsg))
          written := none }) ∧
    (submitWritingTest_uc test_id (some uid) existing? (some test) answers
        time_taken (.fail failMsg) now
      = { resp := .err 500 (.evalFailed
            (if failMsg = "" then "Failed to evaluate writing test"
             else failMsg))
          written := none }) := by
  have herr : (evaluateWritingTest sdX (.fail failMsg)).error
      = if failMsg = "" then "Failed to evaluate writing test"
        else failMsg := rfl
  have hmsg : ∀ sd : SubmissionData,
      (if (evaluateWritingTest sd (.fail failMsg)).error = ""
        then "Failed to evaluate test"
        else (evaluateWritingTest sd (.fail failMsg)).error)
      = if failMsg = "" then "Failed to evaluate writing test"
        else failMsg := by
    intro sd
    by_cases hm : failMsg = "" <;>
      simp [evaluateWritingTest, hm]
  refine ⟨⟨rfl, rfl⟩, ?_, ?_⟩
  · simp only [submitWritingTest_wtc, if_neg htid, hw1, hw2]
    rw [if_pos]
    · rw [hmsg]
    · rfl
  · have hc : hasNewContent (findTask answers 1) = true ∨
        hasNewContent (findTask answers 2) = true := by
      rcases hsd with h | h
      · exact Or.inl (sdTask_uc_hasNew test _ 1 h)
      · exact Or.inr (sdTask_uc_hasNew test _ 2 h)
    have hbe : (!(hasNewContent (findTask answers 1) ||
          (match existing? with
            | some e => existingTaskOf e.task1_answer e.task1_word_count
                (hasNewContent (findTask answers 1))
            | none => none).isSome) &&
        !(hasNewContent (findTask answers 2) ||
          (match existing? with
            | some e => existingTaskOf e.task2_answer e.task2_word_count
                (hasNewContent (findTask answers 2))
            | none => none).isSome)) = false := by
      rcases hc with h | h <;> simp [h]
    have hne : ((sdTask_uc test (findTask answers 1) 1).isSome ||
        (sdTask_uc test (findTask answers 2) 2).isSome) = true := by
      rcases hsd with h | h
      · simp [Option.isSome_iff_ne_none.mpr h]
      · simp [Option.isSome_iff_ne_none.mpr h]
    simp only [submitWritingTest_uc, if_neg htid, hbe, Bool.false_eq_true,
      if_false, hu1, hu2, hne, if_true]
    rw [if_pos]
    · rw [hmsg]
    · rfl

/-- Claim C7 witness: with a compliant task 2 answer and a provider that
throws boom, the failure result and both 500 rejections, at concrete
inputs. -/
theorem claim_C7_witness :
    ((evaluateWritingTest { task1 := none, task2 := none }
        (.fail "boom")).success = false ∧
     (evaluateWritingTest { task1 := none, task2 := none }
        (.fail "boom")).data = none) ∧
    (submitWritingTest_wtc 3 (some 1) (some sampleTest) [sampleAnswer2] 0
        (.fail "boom") 0
      = { resp := .err 500 (.evalFailed
            (if "boom" = "" then "Failed to evaluate writing test"
             else "boom"))
          written := none }) ∧
    (submitWritingTest_uc 3 (some 1) none (some sampleTest) [sampleAnswer2] 0
        (.fail "boom") 0
      = { resp := .err 500 (.evalFailed
            (if "boom" = "" then "Failed to evaluate writing test"
             else "boom"))
          written := none }) :=
  claim_C7 { task1 := none, task2 := none } "boom" 3 1 none sampleTest
    [sampleAnswer2] 0 0 (by decide) rfl (by decide) rfl (by decide)
    (Or.inr (by decide))

/-- Claim C2: on a successful resubmission to a test with a stored
submission, every task without new content keeps its stored answer, word
count and per-task AI evaluation in the written row, and every resupplied
task gets the new answer, word count and the fresh provider evaluation.
The hypotheses say: the request is well formed (resupplied tasks carry
text, stored rows pair an empty answer with a zero count), at least one
task ends up nonempty, and the word-count checks pass. -/
theorem claim_C2 (test_id uid : ℕ) (existing : Submission) (test : Test)
    (answers : List Answer) (time_taken now : ℕ) (ev : AiEval)
    (htid : test_id ≠ 0)
    (hst1 : existing.task1_answer = "" → existing.task1_word_count = 0)
    (hst2 : existing.task2_answer = "" → existing.task2_word_count = 0)
    (hin1 : hasNewContent (findTask answers 1) = true →
            answerTextOf (findTask answers 1) ≠ "")
    (hin2 : hasNewContent (findTask answers 2) = true →
            answerTextOf (findTask answers 2) ≠ "")
    (hne : hasNewContent (findTask answers 1) = true ∨
           hasNewContent (findTask answers 2) = true ∨
           existing.task1_answer ≠ "" ∨ existing.task2_answer ≠ "")
    (hw1 : wordCountReject_uc test (findTask answers 1) 1 = none)
    (hw2 : wordCountReject_uc test (findTask answers 2) 2 = none) :
    ∃ row,
      submitWritingTest_uc test_id (some uid) (some existing) (some test)
          answers time_taken (.ok ev) now
        = { resp := .ok .testSubmitted, written := some row } ∧
      (hasNewContent (findTask answers 1) = false →
        row.task1_answer = existing.task1_answer ∧
        row.task1_word_count = existing.task1_word_count ∧
        evalTask1 row.ai_evaluation = evalTask1 existing.ai_evaluation) ∧
      (hasNewContent (findTask answers 1) = true →
        row.task1_answer = answerTextOf (findTask answers 1) ∧
        row.task1_word_count = wordCountOf (findTask answers 1) ∧
        evalTask1 row.ai_evaluation = ev.task1) ∧
      (hasNewContent (findTask answers 2) = false →
        row.task2_answer = existing.task2_answer ∧
        row.task2_word_count = existing.task2_word_count ∧
        evalTask2 row.ai_evaluation = evalTask2 existing.ai_evaluation) ∧
      (hasNewContent (findTask answers 2) = true →
        row.task2_answer = answerTextOf (findTask answers 2) ∧
        row.task2_word_count = wordCountOf (findTask answers 2) ∧
        evalTask2 row.ai_evaluation = ev.task2) := by
  by_cases c1 : hasNewContent (findTask answers 1) = true <;>
    by_cases c2 : hasNewContent (findTask answers 2) = true
  · obtain ⟨v1, hv1⟩ :=
      Option.isSome_iff_exists.mp (sdTask_uc_isSome test _ 1 c1 (hin1 c1))
    obtain ⟨v2, hv2⟩ :=
      Option.isSome_iff_exists.mp (sdTask_uc_isSome test _ 2 c2 (hin2 c2))
    refine ⟨{ existing with
        task1_answer := answerTextOf (findTask answers 1)
        task1_word_count := wordCountOf (findTask answers 1)
        task2_answer := answerTextOf (findTask answers 2)
        task2_word_count := wordCountOf (findTask answers 2)
        time_taken := existing.time_taken + time_taken
        ai_evaluation := some { task1 := ev.task1, task2 := ev.task2 }
        overall_band_score :=
          calculateAverageBand (bandOf ev.task1) (bandOf ev.task2)
        status := "evaluated"
        updated_at := now }, ?_, ?_, ?_, ?_, ?_⟩
    · simp [submitWritingTest_uc, ucSave, evaluateWritingTest, htid, c1, c2,
        hv1, hv2, hw1, hw2]
    · intro h
      simp [c1] at h
    · intro _
      exact ⟨rfl, rfl, by simp [evalTask1]⟩
    · intro h
      simp [c2] at h
    · intro _
      exact ⟨rfl, rfl, by simp [evalTask2]⟩
  · have c2f : hasNewContent (findTask answers 2) = false := by simpa using c2
    obtain ⟨v1, hv1⟩ :=
      Option.isSome_iff_exists.mp (sdTask_uc_isSome test _ 1 c1 (hin1 c1))
    have hs2 := sdTask_uc_of_no_content test (findTask answers 2) 2 c2f
    refine ⟨{ existing with
        task1_answer := answerTextOf (findTask answers 1)
        task1_word_count := wordCountOf (findTask answers 1)
        task2_answer := existing.task2_answer
        task2_word_count := existing.task2_word_count
        time_taken := existing.time_taken + time_taken
        ai_evaluation := some
          { task1 := ev.task1, task2 := evalTask2 existing.ai_evaluation }
        overall_band_score :=
          calculateAverageBand (bandOf ev.task1)
            (bandOf (evalTask2 existing.ai_evaluation))
        status := "evaluated"
        updated_at := now }, ?_, ?_, ?_, ?_, ?_⟩
    · by_cases hE2 : existing.task2_answer = ""
      · simp [submitWritingTest_uc, ucSave, evaluateWritingTest, htid, c1,
          c2f, hv1, hs2, hw1, hw2, existingTaskOf, hE2, hst2 hE2]
      · simp [submitWritingTest_uc, ucSave, evaluateWritingTest, htid, c1,
          c2f, hv1, hs2, hw1, hw2, existingTaskOf, hE2]
    · intro h
      simp [c1] at h
    · intro _
      exact ⟨rfl, rfl, by simp [evalTask1]⟩
    · intro _
      exact ⟨rfl, rfl, by simp [evalTask2]⟩
    · intro h
      simp [c2f] at h
  · have c1f : hasNewContent (findTask answers 1) = false := by simpa using c1
    obtain ⟨v2, hv2⟩ :=
      Option.isSome_iff_exists.mp (sdTask_uc_isSome test _ 2 c2 (hin2 c2))
    have hs1 := sdTask_uc_of_no_content test (findTask answers 1) 1 c1f
    refine ⟨{ existing with
        task1_answer := existing.task1_answer
        task1_word_count := existing.task1_word_count
        task2_answer := answerTextOf (findTask answers 2)
        task2_word_count := wordCountOf (findTask answers 2)
        time_taken := existing.time_taken + time_taken
        ai_evaluation := some
          { task1 := evalTask1 existing.ai_evaluation, task2 := ev.task2 }
        overall_band_score :=
          calculateAverageBand (bandOf (evalTask1 existing.ai_evaluation))
            (bandOf ev.task2)
        status := "evaluated"
        updated_at := now }, ?_, ?_, ?_, ?_, ?_⟩
    · by_cases hE1 : existing.task1_answer = ""
      · simp [submitWritingTest_uc, ucSave, evaluateWritingTest, htid, c1f,
          c2, hv2, hs1, hw1, hw2, existingTaskOf, hE1, hst1 hE1]
      · simp [submitWritingTest_uc, ucSave, evaluateWritingTest, htid, c1f,
          c2, hv2, hs1, hw1, hw2, existingTaskOf, hE1]
    · intro _
      exact ⟨rfl, rfl, by simp [evalTask1]⟩
    · intro h
      simp [c1f] at h
    · intro h
      simp [c2] at h
    · intro _
      exact ⟨rfl, rfl, by simp [evalTask2]⟩
  · have c1f : hasNewContent (findTask answers 1) = false := by simpa using c1
    have c2f : hasNewContent (findTask answers 2) = false := by simpa using c2
    have hs1 := sdTask_uc_of_no_content test (findTask answers 1) 1 c1f
    have hs2 := sdTask_uc_of_no_content test (findTask answers 2) 2 c2f
    have hEx : existing.task1_answer ≠ "" ∨ existing.task2_answer ≠ "" := by
      rcases hne with h | h | h | h
      · rw [c1f] at h
        cases h
      · rw [c2f] at h
        cases h
      · exact Or.inl h
      · exact Or.inr h
    refine ⟨{ existing with
        task1_answer := existing.task1_answer
        task1_word_count := existing.task1_word_count
        task2_answer := existing.task2_answer
        task2_word_count := existing.task2_word_count
        time_taken := existing.time_taken + time_taken
        ai_evaluation := some
          { task1 := evalTask1 existing.ai_evaluation
            task2 := evalTask2 existing.ai_evaluation }
        overall_band_score :=
          calculateAverageBand (bandOf (evalTask1 existing.ai_evaluation))
            (bandOf (evalTask2 existing.ai_evaluation))
        status := "evaluated"
        updated_at := now }, ?_, ?_, ?_, ?_, ?_⟩
    · by_cases hE1 : existing.task1_answer = "" <;>
        by_cases hE2 : existing.task2_answer = ""
      · rcases hEx with h | h
        · exact absurd hE1 h
        · exact absurd hE2 h
      · simp [submitWritingTest_uc, ucSave, evaluateWritingTest, htid, c1f,
          c2f, hs1, hs2, hw1, hw2, existingTaskOf, hE1, hE2, hst1 hE1]
      · simp [submitWritingTest_uc, ucSave, evaluateWritingTest, htid, c1f,
          c2f, hs1, hs2, hw1, hw2, existingTaskOf, hE1, hE2, hst2 hE2]
      · simp [submitWritingTest_uc, ucSave, evaluateWritingTest, htid, c1f,
          c2f, hs1, hs2, hw1, hw2, existingTaskOf, hE1, hE2]
    · intro _
      exact ⟨rfl, rfl, by simp [evalTask1]⟩
    · intro h
      simp [c1f] at h
    · intro _
      exact ⟨rfl, rfl, by simp [evalTask2]⟩
    · intro h
      simp [c2f] at h

/-- Claim C2 witness: the theorem applied at a concrete resubmission that
supplies only task 2: the stored task 1 answer, word count and evaluation
are preserved and task 2 carries the fresh provider evaluation. -/
theorem claim_C2_witness :
    ∃ row,
      submitWritingTest_uc 3 (some 1) (some sampleSubmission)
          (some sampleTest) [sampleAnswer2] 5 (.ok sampleAiEval) 9
        = { resp := .ok .testSubmitted, written := some row } ∧
      (hasNewContent (findTask [sampleAnswer2] 1) = false →
        row.task1_answer = sampleSubmission.task1_answer ∧
        row.task1_word_count = sampleSubmission.task1_word_count ∧
        evalTask1 row.ai_evaluation
          = evalTask1 sampleSubmission.ai_evaluation) ∧
      (hasNewContent (findTask [sampleAnswer2] 1) = true →
        row.task1_answer = answerTextOf (findTask [sampleAnswer2] 1) ∧
        row.task1_word_count = wordCountOf (findTask [sampleAnswer2] 1) ∧
        evalTask1 row.ai_evaluation = sampleAiEval.task1) ∧
      (hasNewContent (findTask [sampleAnswer2] 2) = false →
        row.task2_answer = sampleSubmission.task2_answer ∧
        row.task2_word_count = sampleSubmission.task2_word_count ∧
        evalTask2 row.ai_evaluation
          = evalTask2 sampleSubmission.ai_evaluation) ∧
      (hasNewContent (findTask [sampleAnswer2] 2) = true →
        row.task2_answer = answerTextOf (findTask [sampleAnswer2] 2) ∧
        row.task2_word_count = wordCountOf (findTask [sampleAnswer2] 2) ∧
        evalTask2 row.ai_evaluation = sampleAiEval.task2) :=
  claim_C2 3 1 sampleSubmission sampleTest [sampleAnswer2] 5 9 sampleAiEval
    (by decide) (by decide) (by decide) (by decide) (by decide)
    (Or.inr (Or.inl (by decide))) (by decide) (by decide)

end IeltsBackend
